import Mathlib

/-!
Verification of the rendering and power-control core of the
`ESP_LEDMatrix_32x16_NTP_Clock` firmware against its design specification.

The definitions below are a shallow embedding of the firmware source:
C `int`/`long` arithmetic is modelled over `Int` (with `Int.tdiv` for C's
truncating division), `unsigned long` (`millis()`) arithmetic over `Nat`
with explicit wrap at `2 ^ 32`, the global mutable variables are bundled
into an explicit `ClockState` record, and hardware bus writes are modelled
as an emitted list of `(command, data)` pairs.
-/

/-! ## Configuration constants (from `src/main.cpp`) -/

def NUM_MAX : Nat := 8

def LINE_WIDTH : Nat := 32

def DISPLAY_TIMEOUT : Int := 60

def STARTUP_GRACE_PERIOD : Nat := 10000

def MODE_CYCLE_TIME : Nat := 20000

def DISPLAY_MANUAL_OVERRIDE_DURATION : Nat := 300000

def CMD_INTENSITY : Nat := 10

def CMD_SHUTDOWN : Nat := 12

/-! ## Arduino arithmetic primitives

`constrain(amt, low, high)` is `(amt<low)?low:((amt>high)?high:amt)` and
`map(x, in_min, in_max, out_min, out_max)` is
`(x - in_min) * (out_max - out_min) / (in_max - in_min) + out_min` over
C `long`s, whose `/` truncates toward zero (`Int.tdiv`). -/

def arduinoConstrain (amt low high : Int) : Int :=
  if amt < low then low else if high < amt then high else amt

def arduinoMap (x inMin inMax outMin outMax : Int) : Int :=
  Int.tdiv ((x - inMin) * (outMax - outMin)) (inMax - inMin) + outMin

/-- `computeAmbientBrightnessFromLdr` from the firmware:
`return 15 - map(constrain(ldrValue, 0, 1023), 0, 1023, 1, 15);` -/
def computeAmbientBrightnessFromLdr (ldrValue : Int) : Int :=
  15 - arduinoMap (arduinoConstrain ldrValue 0 1023) 0 1023 1 15

/-! ## Helper lemmas about the Arduino primitives -/

theorem arduinoConstrain_mono (lo hi r1 r2 : Int) (hlh : lo ≤ hi) (h : r1 ≤ r2) :
    arduinoConstrain r1 lo hi ≤ arduinoConstrain r2 lo hi := by
  unfold arduinoConstrain
  split_ifs <;> omega

theorem arduinoConstrain_bounds (lo hi x : Int) (h : lo ≤ hi) :
    lo ≤ arduinoConstrain x lo hi ∧ arduinoConstrain x lo hi ≤ hi := by
  unfold arduinoConstrain
  split_ifs <;> omega

theorem tdiv_mono_nonneg (a b c : Int) (ha : 0 ≤ a) (hab : a ≤ b) (hc : 0 < c) :
    Int.tdiv a c ≤ Int.tdiv b c := by
  rw [Int.tdiv_eq_ediv ha hc.le, Int.tdiv_eq_ediv (ha.trans hab) hc.le]
  exact Int.ediv_le_ediv hc hab

theorem ambientMap_eq (v : Int) :
    arduinoMap v 0 1023 1 15 = Int.tdiv (v * 14) 1023 + 1 := by
  unfold arduinoMap
  norm_num

theorem ambient_eq (r : Int) :
    computeAmbientBrightnessFromLdr r =
      14 - Int.tdiv (arduinoConstrain r 0 1023 * 14) 1023 := by
  unfold computeAmbientBrightnessFromLdr
  rw [ambientMap_eq]
  ring

theorem ambient_quot_bounds (r : Int) :
    0 ≤ Int.tdiv (arduinoConstrain r 0 1023 * 14) 1023 ∧
      Int.tdiv (arduinoConstrain r 0 1023 * 14) 1023 ≤ 14 := by
  obtain ⟨hlo, hhi⟩ := arduinoConstrain_bounds 0 1023 r (by norm_num)
  constructor
  · exact Int.tdiv_nonneg (by nlinarith) (by norm_num)
  · have h1 : arduinoConstrain r 0 1023 * 14 ≤ 1023 * 14 := by nlinarith
    have h2 := tdiv_mono_nonneg (arduinoConstrain r 0 1023 * 14) (1023 * 14) 1023
      (by nlinarith) h1 (by norm_num)
    have h3 : Int.tdiv (1023 * 14) 1023 = 14 := by decide
    omega

/-- C1 (counterexample): the claimed boundary values and monotone direction are
wrong for the code. `computeAmbientBrightnessFromLdr 0 = 14` (the claim says 1),
`computeAmbientBrightnessFromLdr 1023 = 0` (the claim says 15), and the value at
the smaller raw reading 0 is strictly larger than at 1023, refuting
"for r1 < r2, intensity(r1) <= intensity(r2)". -/
theorem ambientBrightness_claim_boundaries_false :
    computeAmbientBrightnessFromLdr 0 = 14 ∧
      computeAmbientBrightnessFromLdr 1023 = 0 ∧
      computeAmbientBrightnessFromLdr 1023 < computeAmbientBrightnessFromLdr 0 := by
  refine ⟨by decide, by decide, by decide⟩

/-- C1 (amended): the ambient-brightness mapping is monotonically
NON-INCREASING in the raw reading (the physical LDR circuit reads high when
dark); the boundary input 0 maps to intensity 14 and 1023 maps to 0; and for
every integer input, including negative values and values greater than 1023,
the result equals the result for the clamped input and stays within `[0, 14]`
(no over/underflow). -/
theorem ambientBrightness_inverted_monotone_clamped :
    (∀ r1 r2 : Int, r1 < r2 →
        computeAmbientBrightnessFromLdr r2 ≤ computeAmbientBrightnessFromLdr r1) ∧
      computeAmbientBrightnessFromLdr 0 = 14 ∧
      computeAmbientBrightnessFromLdr 1023 = 0 ∧
      (∀ r : Int,
        computeAmbientBrightnessFromLdr r =
            computeAmbientBrightnessFromLdr (arduinoConstrain r 0 1023) ∧
          0 ≤ computeAmbientBrightnessFromLdr r ∧
          computeAmbientBrightnessFromLdr r ≤ 14) := by
  refine ⟨?_, by decide, by decide, ?_⟩
  · intro r1 r2 h
    rw [ambient_eq r1, ambient_eq r2]
    have hc := arduinoConstrain_mono 0 1023 r1 r2 (by norm_num) h.le
    obtain ⟨hlo, _⟩ := arduinoConstrain_bounds 0 1023 r1 (by norm_num)
    have := tdiv_mono_nonneg (arduinoConstrain r1 0 1023 * 14)
      (arduinoConstrain r2 0 1023 * 14) 1023 (by nlinarith) (by nlinarith) (by norm_num)
    omega
  · intro r
    obtain ⟨hlo, hhi⟩ := arduinoConstrain_bounds 0 1023 r (by norm_num)
    have hidem : arduinoConstrain (arduinoConstrain r 0 1023) 0 1023 =
        arduinoConstrain r 0 1023 := by
      unfold arduinoConstrain
      split_ifs <;> omega
    obtain ⟨hq0, hq14⟩ := ambient_quot_bounds r
    refine ⟨?_, ?_, ?_⟩
    · rw [ambient_eq r, ambient_eq (arduinoConstrain r 0 1023), hidem]
    · rw [ambient_eq r]; omega
    · rw [ambient_eq r]; omega

/-- C1 witness: the amended monotonicity applied at the concrete pair `3 < 5`,
and the clamping clause at `-7`. -/
theorem ambientBrightness_inverted_monotone_clamped_witness :
    computeAmbientBrightnessFromLdr 5 ≤ computeAmbientBrightnessFromLdr 3 ∧
      computeAmbientBrightnessFromLdr (-7) =
        computeAmbientBrightnessFromLdr (arduinoConstrain (-7) 0 1023) :=
  ⟨ambientBrightness_inverted_monotone_clamped.1 3 5 (by decide),
   (ambientBrightness_inverted_monotone_clamped.2.2.2 (-7)).1⟩

/-- C7: the idle-fade intensity `map(displayTimer, 0, 60, 1, 10)` equals 10 at
`displayTimer = 60`, equals 1 at `displayTimer = 0`, and is monotonically
non-decreasing in the timer value (hence non-increasing as the timer counts
down from 60 toward 0). -/
theorem idleFade_map_linear :
    arduinoMap 60 0 DISPLAY_TIMEOUT 1 10 = 10 ∧
      arduinoMap 0 0 DISPLAY_TIMEOUT 1 10 = 1 ∧
      (∀ t1 t2 : Int, 0 ≤ t1 → t1 ≤ t2 →
        arduinoMap t1 0 DISPLAY_TIMEOUT 1 10 ≤ arduinoMap t2 0 DISPLAY_TIMEOUT 1 10) := by
  refine ⟨by decide, by decide, ?_⟩
  intro t1 t2 h0 h12
  unfold arduinoMap DISPLAY_TIMEOUT
  have := tdiv_mono_nonneg ((t1 - 0) * (10 - 1)) ((t2 - 0) * (10 - 1)) (60 - 0)
    (by nlinarith) (by nlinarith) (by norm_num)
  omega

/-- C7 witness: the fade monotonicity applied at the concrete timer pair
`17 ≤ 42`. -/
theorem idleFade_map_linear_witness :
    arduinoMap 17 0 DISPLAY_TIMEOUT 1 10 ≤ arduinoMap 42 0 DISPLAY_TIMEOUT 1 10 :=
  idleFade_map_linear.2.2 17 42 (by decide) (by decide)

/-! ## Power/brightness state machine

The firmware's free-standing globals relevant to `handleBrightnessAndMotion`
and the web handlers, bundled into one record. Field initializers below in
`initialClockState` are the globals' initial values from the source. -/

structure ClockState where
  hours24 : Int
  minutes : Int
  brightness : Int
  lightLevel : Int
  previousLightLevel : Int
  lightLevelChanged : Bool
  displayTimer : Int
  displayOn : Bool
  motionDetected : Bool
  brightnessManualOverride : Bool
  manualBrightness : Int
  displayManualOverride : Bool
  displayManualOverrideTimeout : Nat
  scheduleOffEnabled : Bool
  scheduleOffStartHour : Int
  scheduleOffStartMinute : Int
  scheduleOffEndHour : Int
  scheduleOffEndMinute : Int
  startupTime : Nat

def initialClockState : ClockState where
  hours24 := 0
  minutes := 0
  brightness := 8
  lightLevel := 512
  previousLightLevel := 512
  lightLevelChanged := false
  displayTimer := 60
  displayOn := true
  motionDetected := false
  brightnessManualOverride := false
  manualBrightness := 4
  displayManualOverride := false
  displayManualOverrideTimeout := 0
  scheduleOffEnabled := true
  scheduleOffStartHour := 22
  scheduleOffStartMinute := 0
  scheduleOffEndHour := 6
  scheduleOffEndMinute := 0
  startupTime := 0

/-- `millis() - startupTime` over `unsigned long`: subtraction wraps modulo
`2 ^ 32`. -/
def u32sub (a b : Nat) : Nat :=
  (a % 2 ^ 32 + 2 ^ 32 - b % 2 ^ 32) % 2 ^ 32

/-- `isWithinScheduleOffWindow()` from the firmware, over the bundled
globals. Returns `true` when inside the scheduled OFF period. -/
def isWithinScheduleOffWindow (st : ClockState) : Bool :=
  if !st.scheduleOffEnabled then false
  else if st.scheduleOffStartHour = st.scheduleOffEndHour ∧
      st.scheduleOffStartMinute = st.scheduleOffEndMinute then false
  else
    let currentMinutes := st.hours24 * 60 + st.minutes
    let offStartMinutes := st.scheduleOffStartHour * 60 + st.scheduleOffStartMinute
    let offEndMinutes := st.scheduleOffEndHour * 60 + st.scheduleOffEndMinute
    if offStartMinutes < offEndMinutes then
      decide (offStartMinutes ≤ currentMinutes ∧ currentMinutes < offEndMinutes)
    else
      decide (offStartMinutes ≤ currentMinutes ∨ currentMinutes < offEndMinutes)

/-- `applyDisplayHardwareState(bool on, int intensity)`: the MAX7219 commands
it sends, as `(command, data)` pairs. `CMD_INTENSITY` is sent only when `on`. -/
def applyDisplayHardwareState (isOn : Bool) (intensity : Int) : List (Nat × Int) :=
  let clamped := arduinoConstrain intensity 0 15
  (CMD_SHUTDOWN, if isOn then 1 else 0) ::
    (if isOn then [(CMD_INTENSITY, clamped)] else [])

/-- `handleBrightnessAndMotion()` as a pure transition: given the bundled
globals, the current `millis()` value, the LDR analog reading and the PIR
digital reading, it returns the updated globals and the hardware commands
sent during the tick. The branch structure mirrors the source line by line. -/
def handleBrightnessAndMotion (st : ClockState) (now : Nat) (ldr : Int)
    (pir : Bool) : ClockState × List (Nat × Int) :=
  if u32sub now st.startupTime < STARTUP_GRACE_PERIOD then
    let ambientBrightness := computeAmbientBrightnessFromLdr ldr
    let b := if st.brightnessManualOverride then st.manualBrightness
      else ambientBrightness
    ({ st with displayOn := true, displayTimer := DISPLAY_TIMEOUT, brightness := b },
      applyDisplayHardwareState true b)
  else
    let lightLevel := ldr
    let lightDifference := |lightLevel - st.previousLightLevel|
    let changeThreshold := if st.previousLightLevel > 0 then
      Int.tdiv (st.previousLightLevel * 5) 100 else 51
    let lightLevelChanged := if lightDifference ≥ changeThreshold then true
      else st.lightLevelChanged
    let ambientBrightness := computeAmbientBrightnessFromLdr lightLevel
    let motionDetected := pir
    -- the schedule check reads only schedule/time globals, none of which this
    -- function modifies, so it may be evaluated on the incoming state
    let withinOffWindow := isWithinScheduleOffWindow st
    let manualOverride := if st.displayManualOverride ∧
        st.displayManualOverrideTimeout < now then false
      else st.displayManualOverride
    let st1 := { st with
      lightLevel := lightLevel
      previousLightLevel := lightLevel
      lightLevelChanged := lightLevelChanged
      motionDetected := motionDetected
      displayManualOverride := manualOverride }
    if manualOverride then
      if st.displayOn then
        let b := if st.brightnessManualOverride then st.manualBrightness
          else ambientBrightness
        ({ st1 with brightness := b }, applyDisplayHardwareState true b)
      else (st1, [])
    else if withinOffWindow then
      if st.displayOn then
        ({ st1 with displayOn := false, displayTimer := 0 },
          applyDisplayHardwareState false 0)
      else ({ st1 with displayTimer := 0 }, [])
    else if motionDetected then
      let b := if st.brightnessManualOverride then st.manualBrightness
        else ambientBrightness
      ({ st1 with displayTimer := DISPLAY_TIMEOUT, displayOn := true, brightness := b },
        applyDisplayHardwareState true b)
    else
      if st.displayTimer > 0 then
        let t := st.displayTimer - 1
        let targetBrightness := if st.brightnessManualOverride then st.manualBrightness
          else ambientBrightness
        let b := arduinoMap t 0 DISPLAY_TIMEOUT 1 targetBrightness
        ({ st1 with displayTimer := t, brightness := b },
          applyDisplayHardwareState true b)
      else
        if st.displayOn then
          ({ st1 with displayOn := false, displayTimer := 0 },
            applyDisplayHardwareState false 0)
        else ({ st1 with displayTimer := 0 }, [])

/-- C3: with the schedule enabled and start 22:00, end 06:00 (midnight-wrap),
`isWithinScheduleOffWindow` returns `true` exactly when the current time in
minutes since midnight is at or after 22:00 or strictly before 06:00; and
whenever start hour:minute equals end hour:minute it returns `false` for every
current time. -/
theorem scheduleOffWindow_wrap_correct :
    (∀ st : ClockState, st.scheduleOffEnabled = true →
      st.scheduleOffStartHour = 22 → st.scheduleOffStartMinute = 0 →
      st.scheduleOffEndHour = 6 → st.scheduleOffEndMinute = 0 →
      (isWithinScheduleOffWindow st = true ↔
        (22 * 60 ≤ st.hours24 * 60 + st.minutes ∨ st.hours24 * 60 + st.minutes < 6 * 60))) ∧
    (∀ st : ClockState, st.scheduleOffStartHour = st.scheduleOffEndHour →
      st.scheduleOffStartMinute = st.scheduleOffEndMinute →
      isWithinScheduleOffWindow st = false) := by
  constructor
  · intro st hen hsh hsm heh hem
    simp only [isWithinScheduleOffWindow, hen, hsh, hsm, heh, hem]
    norm_num
  · intro st hh hm
    simp only [isWithinScheduleOffWindow, hh, hm]
    split_ifs <;> simp_all

/-- C3 witness: at 22:00 and at 05:59 the window is active, at 06:00 and 12:00
it is not; and a start==end configuration (03:15-03:15) yields `false`. -/
theorem scheduleOffWindow_wrap_correct_witness :
    isWithinScheduleOffWindow { initialClockState with hours24 := 22, minutes := 0 } = true ∧
      isWithinScheduleOffWindow { initialClockState with hours24 := 5, minutes := 59 } = true ∧
      isWithinScheduleOffWindow { initialClockState with hours24 := 6, minutes := 0 } = false ∧
      isWithinScheduleOffWindow { initialClockState with hours24 := 12, minutes := 0 } = false ∧
      isWithinScheduleOffWindow { initialClockState with
        hours24 := 4
        minutes := 0
        scheduleOffStartHour := 3
        scheduleOffStartMinute := 15
        scheduleOffEndHour := 3
        scheduleOffEndMinute := 15 } = false := by
  refine ⟨?_, ?_, ?_, ?_, ?_⟩
  · exact ((scheduleOffWindow_wrap_correct.1 _ rfl rfl rfl rfl rfl).2 (by norm_num))
  · exact ((scheduleOffWindow_wrap_correct.1 _ rfl rfl rfl rfl rfl).2 (by norm_num))
  · decide
  · decide
  · exact scheduleOffWindow_wrap_correct.2 _ rfl rfl

/-- A grace-period test state: schedule window 22:00-06:00 is active (23:00),
`startupTime = 0`. -/
def graceTestState : ClockState := { initialClockState with hours24 := 23 }

/-- C4: while the startup grace period is active
(`millis() - startupTime < STARTUP_GRACE_PERIOD`, in wrapping `u32` math),
the tick forces the display on, resets the idle timer to the full
`DISPLAY_TIMEOUT`, and takes brightness from the manual value when the
manual-brightness override is set and otherwise from the ambient mapping.
The state `st` is arbitrary, so this holds in particular when the scheduled
off-window condition is simultaneously true: grace wins over schedule. -/
theorem startupGrace_forces_on (st : ClockState) (now : Nat) (ldr : Int) (pir : Bool)
    (h : u32sub now st.startupTime < STARTUP_GRACE_PERIOD) :
    (handleBrightnessAndMotion st now ldr pir).1.displayOn = true ∧
      (handleBrightnessAndMotion st now ldr pir).1.displayTimer = DISPLAY_TIMEOUT ∧
      (handleBrightnessAndMotion st now ldr pir).1.brightness =
        (if st.brightnessManualOverride then st.manualBrightness
          else computeAmbientBrightnessFromLdr ldr) ∧
      (handleBrightnessAndMotion st now ldr pir).2 =
        applyDisplayHardwareState true
          (if st.brightnessManualOverride then st.manualBrightness
            else computeAmbientBrightnessFromLdr ldr) := by
  simp [handleBrightnessAndMotion, h]

/-- C4 witness: at `now = 5000` (inside the 10 s grace), on a state where the
scheduled off-window is simultaneously true, the display is nevertheless on
with a full timer. -/
theorem startupGrace_forces_on_witness :
    u32sub 5000 graceTestState.startupTime < STARTUP_GRACE_PERIOD ∧
      isWithinScheduleOffWindow graceTestState = true ∧
      ((handleBrightnessAndMotion graceTestState 5000 512 false).1.displayOn = true ∧
        (handleBrightnessAndMotion graceTestState 5000 512 false).1.displayTimer = DISPLAY_TIMEOUT ∧
        (handleBrightnessAndMotion graceTestState 5000 512 false).1.brightness =
          (if graceTestState.brightnessManualOverride then graceTestState.manualBrightness
            else computeAmbientBrightnessFromLdr 512) ∧
        (handleBrightnessAndMotion graceTestState 5000 512 false).2 =
          applyDisplayHardwareState true
            (if graceTestState.brightnessManualOverride then graceTestState.manualBrightness
              else computeAmbientBrightnessFromLdr 512)) :=
  ⟨by decide, by decide, startupGrace_forces_on graceTestState 5000 512 false (by decide)⟩

/-- A manual-override test state: override active with expiry at
`millis() = 50000`, display on, schedule off-window active (23:00). -/
def overrideExpiryState : ClockState := { initialClockState with
  hours24 := 23
  displayManualOverride := true
  displayManualOverrideTimeout := 50000 }

/-- C5 (counterexample): at the tick occurring exactly AT the expiry instant
(`millis() = displayManualOverrideTimeout = 50000`), the override flag is NOT
cleared and the schedule does not take over — the display stays on even though
the off-window is active — because the code clears the flag only when
`millis() > displayManualOverrideTimeout` (strictly after). The claim says the
flag is cleared "on the first tick at or after the expiry instant". -/
theorem manualOverride_expiry_instant_not_cleared :
    overrideExpiryState.displayManualOverrideTimeout = 50000 ∧
      ¬ u32sub 50000 overrideExpiryState.startupTime < STARTUP_GRACE_PERIOD ∧
      isWithinScheduleOffWindow overrideExpiryState = true ∧
      (handleBrightnessAndMotion overrideExpiryState 50000 512 false).1.displayManualOverride
        = true ∧
      (handleBrightnessAndMotion overrideExpiryState 50000 512 false).1.displayOn = true := by
  decide

/-- C5 (amended): after the startup grace, while the manual display override is
active and `millis() ≤ displayManualOverrideTimeout`, the tick honors the
user's last on/off choice — `displayOn` is unchanged even when the scheduled
off-window condition is true, and brightness is re-adjusted (and hardware
commands sent) only while the display is on. On the first tick STRICTLY after
the expiry instant (`millis() > displayManualOverrideTimeout`) the flag is
cleared and the schedule rule takes over (display forced off if within the
off-window). -/
theorem manualOverride_wins_until_strictly_after_expiry (st : ClockState) (now : Nat)
    (ldr : Int) (pir : Bool)
    (hg : ¬ u32sub now st.startupTime < STARTUP_GRACE_PERIOD)
    (hov : st.displayManualOverride = true) :
    (now ≤ st.displayManualOverrideTimeout →
      (handleBrightnessAndMotion st now ldr pir).1.displayOn = st.displayOn ∧
        (handleBrightnessAndMotion st now ldr pir).1.displayManualOverride = true ∧
        (st.displayOn = false →
          (handleBrightnessAndMotion st now ldr pir).1.brightness = st.brightness ∧
            (handleBrightnessAndMotion st now ldr pir).2 = [])) ∧
    (st.displayManualOverrideTimeout < now →
      (handleBrightnessAndMotion st now ldr pir).1.displayManualOverride = false ∧
        (isWithinScheduleOffWindow st = true →
          (handleBrightnessAndMotion st now ldr pir).1.displayOn = false ∧
            (handleBrightnessAndMotion st now ldr pir).1.displayTimer = 0)) := by
  constructor
  · intro hle
    have hnot : ¬ (st.displayManualOverrideTimeout < now) := by omega
    by_cases hOn : st.displayOn <;>
      simp [handleBrightnessAndMotion, hg, hov, hnot, hOn]
  · intro hlt
    constructor
    · by_cases hOn : st.displayOn <;>
        by_cases hwin : isWithinScheduleOffWindow st <;>
        by_cases hp : pir <;>
        by_cases ht : st.displayTimer > 0 <;>
        simp [handleBrightnessAndMotion, hg, hov, hlt, hOn, hwin, hp, ht]
    · intro hwin
      by_cases hOn : st.displayOn <;>
        simp [handleBrightnessAndMotion, hg, hov, hlt, hwin, hOn]

/-- C5 witness: one tick before expiry (`now = 49999 ≤ 50000`) the override is
honored (flag still set, display unchanged: on), and on a tick strictly after
expiry (`now = 50001`) the flag is cleared and the active off-window forces the
display off. -/
theorem manualOverride_wins_until_strictly_after_expiry_witness :
    ((handleBrightnessAndMotion overrideExpiryState 49999 512 false).1.displayOn =
        overrideExpiryState.displayOn ∧
      (handleBrightnessAndMotion overrideExpiryState 49999 512 false).1.displayManualOverride
        = true) ∧
      ((handleBrightnessAndMotion overrideExpiryState 50001 512 false).1.displayManualOverride
          = false ∧
        (handleBrightnessAndMotion overrideExpiryState 50001 512 false).1.displayOn = false) := by
  constructor
  · have h := (manualOverride_wins_until_strictly_after_expiry overrideExpiryState
      49999 512 false (by decide) rfl).1 (by decide)
    exact ⟨h.1, h.2.1⟩
  · have h := (manualOverride_wins_until_strictly_after_expiry overrideExpiryState
      50001 512 false (by decide) rfl).2 (by decide)
    exact ⟨h.1, (h.2 (by decide)).1⟩

/-- The `/brightness` web handler: `?mode` toggles auto/manual, `?value=` sets
the manual brightness, stores it as the current brightness and sends
`CMD_INTENSITY` — with no check of `displayOn`. -/
def brightnessHandler (st : ClockState) (hasMode hasValue : Bool) (value : Int) :
    ClockState × List (Nat × Int) :=
  if hasMode then
    ({ st with brightnessManualOverride := !st.brightnessManualOverride }, [])
  else if hasValue then
    let newBrightness := arduinoConstrain value 1 15
    ({ st with manualBrightness := newBrightness, brightness := newBrightness },
      [(CMD_INTENSITY, newBrightness)])
  else (st, [])

/-- A state with the display off (as after a schedule- or idle-driven
shutdown). -/
def displayOffState : ClockState := { initialClockState with displayOn := false }

/-- C6 (counterexample): the `/brightness?value=` handler sends `CMD_INTENSITY`
even while `displayOn` is false, so the machine CAN assert "off" and a non-idle
intensity simultaneously, contrary to the claim that every code path sending
`CMD_INTENSITY` does so only while `displayOn` is true. -/
theorem brightnessHandler_sends_intensity_while_off :
    displayOffState.displayOn = false ∧
      (brightnessHandler displayOffState false true 9).2 = [(CMD_INTENSITY, 9)] ∧
      (brightnessHandler displayOffState false true 9).1.displayOn = false := by
  decide

/-- C6 (amended): `applyDisplayHardwareState` — the centralized path used by
every tick of `handleBrightnessAndMotion` and by the `/display` handler —
sends `CMD_INTENSITY` only when its `on` argument is true; but the
`/brightness?value=` web handler sends `CMD_INTENSITY` unconditionally,
regardless of `displayOn`. -/
theorem intensity_only_when_on_amended :
    (∀ (isOn : Bool) (intensity d : Int),
        (CMD_INTENSITY, d) ∈ applyDisplayHardwareState isOn intensity → isOn = true) ∧
      (∀ (st : ClockState) (v : Int),
        (brightnessHandler st false true v).2 = [(CMD_INTENSITY, arduinoConstrain v 1 15)]) := by
  constructor
  · intro isOn intensity d hmem
    cases isOn
    · simp [applyDisplayHardwareState, CMD_SHUTDOWN, CMD_INTENSITY] at hmem
    · rfl
  · intro st v
    rfl

/-- C6 witness: `CMD_INTENSITY` with its clamped data is indeed among the
commands sent by `applyDisplayHardwareState true 5`, and the amended theorem
applied there yields `true = true`. -/
theorem intensity_only_when_on_amended_witness :
    (CMD_INTENSITY, (5 : Int)) ∈ applyDisplayHardwareState true 5 ∧ true = true :=
  ⟨by decide, intensity_only_when_on_amended.1 true 5 5 (by decide)⟩

/-! ## Display mode cycling -/

/-- The mode selection in `loop()`:
`int newMode = (currentMillis % (MODE_CYCLE_TIME * 3)) / MODE_CYCLE_TIME;` -/
def displayModeOfMillis (t : Nat) : Nat :=
  (t % (MODE_CYCLE_TIME * 3)) / MODE_CYCLE_TIME

/-- C8: the display mode is a deterministic function of the millisecond
counter: it equals `(t / 20000) mod 3`, is 0 on `[0, 20000)`, 1 on
`[20000, 40000)` and 2 on `[40000, 60000)` within each period, and repeats
with period 60000. -/
theorem displayMode_cycle_deterministic :
    (∀ t : Nat, displayModeOfMillis t = (t / 20000) % 3) ∧
      (∀ t : Nat,
        (t % 60000 < 20000 → displayModeOfMillis t = 0) ∧
        (20000 ≤ t % 60000 → t % 60000 < 40000 → displayModeOfMillis t = 1) ∧
        (40000 ≤ t % 60000 → t % 60000 < 60000 → displayModeOfMillis t = 2)) ∧
      (∀ t : Nat, displayModeOfMillis (t + 60000) = displayModeOfMillis t) := by
  refine ⟨?_, ?_, ?_⟩
  · intro t
    exact Nat.mod_mul_right_div_self t 20000 3
  · intro t
    unfold displayModeOfMillis MODE_CYCLE_TIME
    refine ⟨?_, ?_, ?_⟩ <;> intros <;> omega
  · intro t
    unfold displayModeOfMillis MODE_CYCLE_TIME
    omega

/-- C8 witness: mode at 25000 ms into a cycle is 1, and mode at
`70000 = 10000 + 60000` matches mode at 10000. -/
theorem displayMode_cycle_deterministic_witness :
    (20000 ≤ 25000 % 60000 ∧ 25000 % 60000 < 40000 ∧ displayModeOfMillis 25000 = 1) ∧
      displayModeOfMillis (10000 + 60000) = displayModeOfMillis 10000 :=
  ⟨⟨by decide, by decide,
      (displayMode_cycle_deterministic.2.1 25000).2.1 (by decide) (by decide)⟩,
    displayMode_cycle_deterministic.2.2 10000⟩

/-! ## ChainTransform: Rotate90 serialization and the `/api/display` mirror

The frame buffer `byte scr[NUM_MAX * 8 + 8]` is modelled as a function
`Nat → Nat` from byte index to byte value. -/

/-- The byte `bt` that `refreshAllRot90()` shifts out for chain position `i`
during the row-command iteration `c` (where the row mask is `0x80 >> c`):
the inner `for (b = 0; b < 8; b++) { bt >>= 1; if (scr[i*8+b] & mask) bt |= 0x80; }`
loop, unrolled. -/
def rot90WriteByte (scr : Nat → Nat) (c i : Nat) : Nat :=
  let mask := 128 >>> c
  let step : Nat → Nat → Nat := fun bt b =>
    if scr (i * 8 + b) &&& mask ≠ 0 then (bt >>> 1) ||| 128 else bt >>> 1
  step (step (step (step (step (step (step (step 0 0) 1) 2) 3) 4) 5) 6) 7

/-- The `/api/display` handler's pixel decode for `ROTATE==90`: pixel `(x,y)`
is on iff `scr[((y/8)*4 + x/8)*8 + x%8] & (0x01 << (y%8))` is non-zero. -/
def apiDisplayPixelRot90 (scr : Nat → Nat) (x y : Nat) : Bool :=
  let moduleCol := x / 8
  let moduleRow := y / 8
  let moduleIdx := moduleRow * 4 + moduleCol
  let colInModule := x % 8
  let rowInModule := y % 8
  let mask := 1 <<< rowInModule
  let byteOffset := moduleIdx * 8 + colInModule
  decide (scr byteOffset &&& mask ≠ 0)

/-- The logical frame-buffer pixel `(x,y)`: bit `y % 8` of the byte the font
blitter writes at `scr[x + LINE_WIDTH * (y / 8)]`. -/
def scrPixel (scr : Nat → Nat) (x y : Nat) : Bool :=
  Nat.testBit (scr (x + LINE_WIDTH * (y / 8))) (y % 8)

/-- The serializer's own inverse mapping: pixel `(x,y)` comes back as bit
`x % 8` of the byte sent for chain position `(y/8)*4 + x/8` during row
iteration `c = 7 - y % 8`. -/
def rot90DecodePixel (output : Nat → Nat → Nat) (x y : Nat) : Bool :=
  Nat.testBit (output (7 - y % 8) ((y / 8) * 4 + x / 8)) (x % 8)

theorem testBit_128_eq (k : Nat) : Nat.testBit 128 k = decide (7 = k) := by
  have h : (128 : Nat) = 2 ^ 7 := rfl
  rw [h, Nat.testBit_two_pow]

theorem rot90Step_testBit (bt : Nat) (q : Prop) [Decidable q] (k : Nat) :
    Nat.testBit (if q then (bt >>> 1) ||| 128 else bt >>> 1) k =
      (Nat.testBit bt (k + 1) || (decide (7 = k) && decide q)) := by
  by_cases hq : q <;>
    simp [hq, Nat.testBit_or, Nat.testBit_shiftRight, testBit_128_eq, Nat.add_comm]

/-- Bit `k` of the serialized byte for chain position `i`, row iteration `c`,
is exactly the condition the loop tested for buffer byte `i*8 + k`. -/
theorem rot90WriteByte_testBit (scr : Nat → Nat) (c i k : Nat) (hk : k < 8) :
    Nat.testBit (rot90WriteByte scr c i) k =
      decide (scr (i * 8 + k) &&& (128 >>> c) ≠ 0) := by
  unfold rot90WriteByte
  interval_cases k <;>
    simp only [rot90Step_testBit, Nat.zero_testBit] <;> simp

theorem and_two_pow_ne_zero_decide (s r : Nat) :
    decide (s &&& 2 ^ r ≠ 0) = Nat.testBit s r := by
  rw [Nat.and_two_pow]
  cases h : s.testBit r
  · simp [h]
  · simp [h, Nat.pos_iff_ne_zero, (Nat.two_pow_pos r).ne]

theorem rot90_mask_eq (r : Nat) (hr : r < 8) : (128 : Nat) >>> (7 - r) = 1 <<< r := by
  interval_cases r <;> rfl

/-- C2: for every pixel `(x, y)` of the 32x16 display and every frame-buffer
content, the bit emitted for that pixel's chain position by the Rotate90
physical serialization (`refreshAllRot90`), decoded by the serializer's own
inverse mapping, equals the bit the read-only `/api/display` mirror reports
for `(x, y)`, and that in turn is exactly the logical buffer pixel
`scr[x + LINE_WIDTH*(y/8)] & (1 << (y%8))` — the mirror uses the same bit
order as the physical write, and decoding the serialized output recovers the
logical buffer exactly. -/
theorem rot90_serialization_matches_mirror (scr : Nat → Nat) (x y : Nat)
    (hx : x < 32) (hy : y < 16) :
    rot90DecodePixel (rot90WriteByte scr) x y = apiDisplayPixelRot90 scr x y ∧
      apiDisplayPixelRot90 scr x y = scrPixel scr x y := by
  have h8 : x % 8 < 8 := Nat.mod_lt _ (by norm_num)
  have hr : y % 8 < 8 := Nat.mod_lt _ (by norm_num)
  have hidx : ((y / 8) * 4 + x / 8) * 8 + x % 8 = x + LINE_WIDTH * (y / 8) := by
    have h32 : LINE_WIDTH = 32 := rfl
    rw [h32]
    omega
  constructor
  · simp only [rot90DecodePixel, apiDisplayPixelRot90]
    rw [rot90WriteByte_testBit scr _ _ _ h8, rot90_mask_eq _ hr]
  · simp only [apiDisplayPixelRot90, scrPixel]
    rw [hidx, Nat.shiftLeft_eq, one_mul, and_two_pow_ne_zero_decide]

/-- C2 witness: the three pixel views agree at the concrete pixel `(5, 9)` on
the concrete buffer `scr k = k`. -/
theorem rot90_serialization_matches_mirror_witness :
    (5 < 32 ∧ 9 < 16) ∧
      (rot90DecodePixel (rot90WriteByte (fun k => k)) 5 9 =
          apiDisplayPixelRot90 (fun k => k) 5 9 ∧
        apiDisplayPixelRot90 (fun k => k) 5 9 = scrPixel (fun k => k) 5 9) :=
  ⟨⟨by decide, by decide⟩,
    rot90_serialization_matches_mirror (fun k => k) 5 9 (by decide) (by decide)⟩

/-! ## FontTable and glyph blitter

Fonts are byte arrays `{glyph_width_max, glyph_height, first_code, last_code,
records...}` with one `(width, columns...)` record per code; `pgm_read_byte`
of an index is modelled as `List.getD` with default 0. -/

def fontByte (font : List Nat) (k : Nat) : Nat :=
  font.getD k 0

/-- `digits5x8rn` from the source (header `{5, 8, ' ', ':'}`, six bytes per
record). -/
def digits5x8rn : List Nat := [5, 8, 32, 58,
  0, 0, 0, 0, 0, 0,
  1, 0b01011111, 0b00000000, 0b00000000, 0, 0,
  3, 0b00000011, 0b00000000, 0b00000011, 0, 0,
  3, 0b00000010, 0b01111111, 0b00000010, 0, 0,
  3, 0b00100000, 0b01111111, 0b00100000, 0, 0,
  3, 0b01100001, 0b00011100, 0b01000011, 0, 0,
  0, 0, 0, 0, 0, 0,
  1, 0b00000001, 0b00000000, 0b00000000, 0, 0,
  2, 0b00111110, 0b01000001, 0b00000000, 0, 0,
  2, 0b01000001, 0b00111110, 0b00000000, 0, 0,
  0, 0, 0, 0, 0, 0,
  5, 0b00001000, 0b00001000, 0b00111110, 0b00001000, 0b00001000,
  2, 0b10000000, 0b01000000, 0b00000000, 0, 0,
  5, 0b00001000, 0b00001000, 0b00001000, 0b00001000, 0b00001000,
  1, 0b01000000, 0b00000000, 0b00000000, 0, 0,
  3, 0b01100000, 0b00011100, 0b00000011, 0, 0,
  0x05, 0x7E, 0x81, 0x81, 0xFF, 0x7E,
  0x04, 0x04, 0x02, 0xFF, 0xFF, 0x00,
  0x05, 0xF1, 0x89, 0x89, 0x8F, 0x86,
  0x05, 0x81, 0x89, 0x89, 0xFF, 0x76,
  0x05, 0x1F, 0x10, 0x10, 0xFE, 0xFE,
  0x05, 0x8F, 0x89, 0x89, 0xF9, 0x71,
  0x05, 0x7E, 0x89, 0x89, 0xF9, 0x70,
  0x05, 0x01, 0xC1, 0xF1, 0x3F, 0x0F,
  0x05, 0x76, 0x89, 0x89, 0xFF, 0x76,
  0x05, 0x0E, 0x91, 0x91, 0xFF, 0x7E,
  1, 0b00100100, 0, 0, 0, 0]

/-- `digits3x5` from the source (header `{3, 5, '0', '9'}`, four bytes per
record). -/
def digits3x5 : List Nat := [3, 5, 48, 57,
  0x03, 0xF8, 0x88, 0xF8,
  0x03, 0, 0x10, 0xF8,
  0x03, 0xE8, 0xA8, 0xB8,
  0x03, 0x88, 0xA8, 0xF8,
  0x03, 0x38, 0x20, 0xF8,
  0x03, 0xB8, 0xA8, 0xE8,
  0x03, 0xF8, 0xA8, 0xE8,
  0x03, 0x08, 0x08, 0xF8,
  0x03, 0xF8, 0xA8, 0xF8,
  0x03, 0xB8, 0xA8, 0xF8]

/-- Byte offset of the glyph record for code `ch`:
`4 + (ch - offs) * (fht8 * fwd + 1)`. -/
def glyphRecordBase (font : List Nat) (ch : Int) : Nat :=
  let fwd := fontByte font 0
  let fht := fontByte font 1
  let offs := (fontByte font 2 : Int)
  let fht8 := (fht + 7) / 8
  4 + (ch - offs).toNat * (fht8 * fwd + 1)

/-- `charWidth(char c, const uint8_t* font)` from the source, including its
reading of `len` from `font + 4`. -/
def charWidth (ch : Int) (font : List Nat) : Nat :=
  let offs := (fontByte font 2 : Int)
  let lastCode := (fontByte font 3 : Int)
  if ch < offs ∨ lastCode < ch then 0
  else
    let c := (ch - offs).toNat
    let len := fontByte font 4
    fontByte font (5 + c * len)

/-- `printCharX(char ch, const uint8_t* font, int x)` from the source, as the
returned width together with the ordered list of `(index, value)` stores into
`scr`: for each band `j < fht8`, bytes at `x + LINE_WIDTH*(j+yPos) + i` for
`i < w`, then the defensive clear at column `x + w` when `x + w < LINE_WIDTH`. -/
def printCharX (ch : Int) (font : List Nat) (x yP : Nat) : Nat × List (Nat × Nat) :=
  let fht := fontByte font 1
  let offs := (fontByte font 2 : Int)
  let lastCode := (fontByte font 3 : Int)
  if ch < offs ∨ lastCode < ch then (0, [])
  else
    let fht8 := (fht + 7) / 8
    let base := glyphRecordBase font ch
    let w := fontByte font base
    (w, (List.range fht8).flatMap fun j =>
      ((List.range w).map fun i =>
        (x + LINE_WIDTH * (j + yP) + i, fontByte font (base + 1 + fht8 * i + j))) ++
      (if x + w < LINE_WIDTH then [(x + LINE_WIDTH * (j + yP) + w, 0)] else []))

/-- `printChar(unsigned char c, const uint8_t* font)`: guard
`if (xPos > NUM_MAX * 8) return;`, then blit at `xPos` and advance by
`w + 1`. Returns the new `xPos` and the stores performed. -/
def printChar (c : Int) (font : List Nat) (xPos yP : Nat) : Nat × List (Nat × Nat) :=
  if NUM_MAX * 8 < xPos then (xPos, [])
  else
    let r := printCharX c font xPos yP
    (xPos + r.1 + 1, r.2)

/-- Applying a list of `(index, value)` stores to the buffer. -/
def applyWrites (scr : Nat → Nat) (ws : List (Nat × Nat)) : Nat → Nat :=
  ws.foldl (fun s p k => if k = p.1 then p.2 else s k) scr

/-- C9: for every character code outside a font's declared
`[first_code, last_code]` range, `charWidth` returns 0 and `printCharX`
returns 0 while performing no store: the frame buffer is unchanged (silent
skip, not an error). -/
theorem font_out_of_range_silent_skip (ch : Int) (font : List Nat) (x yP : Nat)
    (h : ch < fontByte font 2 ∨ (fontByte font 3 : Int) < ch) :
    charWidth ch font = 0 ∧ (printCharX ch font x yP).1 = 0 ∧
      (printCharX ch font x yP).2 = [] ∧
      (∀ scr : Nat → Nat, applyWrites scr (printCharX ch font x yP).2 = scr) := by
  refine ⟨?_, ?_, ?_, ?_⟩ <;> simp [charWidth, printCharX, applyWrites, h]

/-- C9 witness: code 65 is above `digits3x5`'s last code 57, so width 0, no
stores, buffer unchanged. -/
theorem font_out_of_range_silent_skip_witness :
    ((65 : Int) < fontByte digits3x5 2 ∨ (fontByte digits3x5 3 : Int) < 65) ∧
      (charWidth 65 digits3x5 = 0 ∧ (printCharX 65 digits3x5 0 0).1 = 0 ∧
        (printCharX 65 digits3x5 0 0).2 = [] ∧
        applyWrites (fun k => k) (printCharX 65 digits3x5 0 0).2 = fun k => k) := by
  have h : (65 : Int) < fontByte digits3x5 2 ∨ (fontByte digits3x5 3 : Int) < 65 := by
    decide
  have hthm := font_out_of_range_silent_skip 65 digits3x5 0 0 h
  exact ⟨h, hthm.1, hthm.2.1, hthm.2.2.1, hthm.2.2.2 (fun k => k)⟩

/-- C10 (counterexample): the guard `xPos <= NUM_MAX*8` does NOT keep
`printCharX`'s stores inside `scr[NUM_MAX*8 + 8]` for `yPos = 1`: printing
glyph `'0'` (code 48) of `digits5x8rn` at `xPos = 64` (which passes the
guard, `64 <= 64`) with `yPos = 1` stores at indices 96..100, all `≥ 72`. -/
theorem printChar_guard_unsafe_yPos1 :
    ¬ (NUM_MAX * 8 < 64) ∧
      ((printChar 48 digits5x8rn 64 1).2.map Prod.fst).contains 96 = true ∧
      ((printChar 48 digits5x8rn 64 1).2.all fun p =>
        decide (p.1 < NUM_MAX * 8 + 8)) = false := by
  refine ⟨by decide, by decide, by decide⟩

/-- C10 (amended): the guard does bound the stores for the single-band case
actually used with `yPos` as set by the callers' top-line rendering: for any
font whose glyph height occupies one 8-row band (`fht8 = 1`) and whose glyph
record width is at most 7 (all fonts in the firmware have width ≤ 5), every
store of `printChar` issued at `yPos = 0` from a guard-passing `xPos ≤ 64`
lands strictly below `NUM_MAX*8 + 8 = 72`. For `yPos = 1` (or the second band
of a 16-pixel font) the guard does not prevent out-of-bounds stores, as the
counterexample shows. -/
theorem printChar_band0_guard_inbounds (ch : Int) (font : List Nat) (x : Nat)
    (hx : x ≤ NUM_MAX * 8)
    (hband : (fontByte font 1 + 7) / 8 = 1)
    (hw : fontByte font (glyphRecordBase font ch) ≤ 7) :
    ((printChar ch font x 0).2.all fun p => decide (p.1 < NUM_MAX * 8 + 8)) = true := by
  have hx64 : x ≤ 64 := by simpa [NUM_MAX] using hx
  unfold printChar
  rw [if_neg (by simp [NUM_MAX]; omega)]
  unfold printCharX
  by_cases hin : ch < (fontByte font 2 : Int) ∨ (fontByte font 3 : Int) < ch
  · simp [hin]
  · simp only [if_neg hin, hband]
    rw [List.all_eq_true]
    intro p hp
    simp only [List.mem_flatMap, List.mem_range] at hp
    obtain ⟨j, hj, hp⟩ := hp
    have hj0 : j = 0 := by omega
    subst hj0
    simp only [List.mem_append, List.mem_map, List.mem_range] at hp
    rcases hp with ⟨i, hi, rfl⟩ | hp
    · simp only [decide_eq_true_eq, NUM_MAX, LINE_WIDTH]
      omega
    · by_cases hxw : x + fontByte font (glyphRecordBase font ch) < LINE_WIDTH
      · simp only [if_pos hxw, List.mem_singleton] at hp
        subst hp
        simp only [LINE_WIDTH] at hxw
        simp only [decide_eq_true_eq, NUM_MAX, LINE_WIDTH]
        omega
      · simp only [if_neg hxw, List.not_mem_nil] at hp

/-- C10 witness: the amended bound applied to glyph `'0'` (code 48) of
`digits5x8rn` at the extreme guard-passing position `xPos = 64`, `yPos = 0`. -/
theorem printChar_band0_guard_inbounds_witness :
    (64 ≤ NUM_MAX * 8 ∧ (fontByte digits5x8rn 1 + 7) / 8 = 1 ∧
        fontByte digits5x8rn (glyphRecordBase digits5x8rn 48) ≤ 7) ∧
      ((printChar 48 digits5x8rn 64 0).2.all fun p =>
        decide (p.1 < NUM_MAX * 8 + 8)) = true :=
  ⟨⟨by decide, by decide, by decide⟩,
    printChar_band0_guard_inbounds 48 digits5x8rn 64 (by decide) (by decide) (by decide)⟩
